import Mathlib

/-!
Shallow embedding of the cursock raw-socket layer (src/src/socket.rs).

OS and capture-library calls are modelled by explicit oracle values that
carry the value each call would return; the Rust functions are translated
into pure Lean functions over those oracles.  Machine integers become
`Int`/`Nat`; `Result<T, CursedErrorHandle>` becomes
`Except CursedErrorHandle T`; byte buffers become `List Nat`.
-/

namespace Cursock

/-- The error kinds of `CursedError` used by the crate. -/
inductive CursedError
  | OS
  | Parse
  | Initialize
  | Sockets
  | TimeOut
  | InvalidArgument
  deriving DecidableEq, Repr

/-- `CursedErrorHandle::new(kind, message)`: a kind plus diagnostic text. -/
structure CursedErrorHandle where
  kind : CursedError
  message : String
  deriving DecidableEq, Repr

/-- 4-byte IPv4 address value. -/
structure Ipv4 where
  b0 : Nat
  b1 : Nat
  b2 : Nat
  b3 : Nat
  deriving DecidableEq, Repr

/-- 6-byte MAC address value. -/
structure Mac where
  m0 : Nat
  m1 : Nat
  m2 : Nat
  m3 : Nat
  m4 : Nat
  m5 : Nat
  deriving DecidableEq, Repr

/-- `memcpy(dst, src, size)`: the first `size` bytes of `dst` are replaced
by the first `size` bytes of `src`; the rest of `dst` is untouched. -/
def memcpy (dst src : List Nat) (size : Nat) : List Nat :=
  src.take size ++ dst.drop size

/-- OS / capture-library calls a channel operation can issue, recorded so
that resource-release behaviour can be stated. -/
inductive OsCall
  | close (fv : Int)
  | pcap_inject (adapter : Nat)
  | pcap_next_ex (adapter : Nat)
  | pcap_close (adapter : Nat)
  deriving DecidableEq, Repr

/-- Whether a call releases a platform handle. -/
def OsCall.isRelease : OsCall → Bool
  | .close _ => true
  | .pcap_close _ => true
  | _ => false

end Cursock

namespace Cursock.Linux

open Cursock

/-- The Linux variant of `Socket`: descriptor, interface index and the
resolved source addresses. -/
structure Socket where
  ifindex : Int
  socket : Int
  src_ip : Ipv4
  src_mac : Mac
  deriving DecidableEq, Repr

/-- `Socket::get_src_ip`. -/
def Socket.get_src_ip (s : Socket) : Ipv4 :=
  s.src_ip

/-- `Socket::get_src_mac`. -/
def Socket.get_src_mac (s : Socket) : Mac :=
  s.src_mac

/-- `Socket::send_raw_packet_linux`, given the value returned by the one
`sendto` call: a negative return is a socket-operation failure, any other
return is success carrying unit.  The socket state is returned unchanged
(the method takes `&self` and assigns no field). -/
def Socket.send_raw_packet (s : Socket) (sendtoRet : Int) :
    Except CursedErrorHandle Unit × Socket :=
  if sendtoRet < 0 then
    (Except.error ⟨CursedError.Sockets, "Can\x27t send buffer"⟩, s)
  else
    (Except.ok (), s)

/-- Oracle for one `recvfrom` call: its return value and the bytes the OS
wrote into the buffer (at most the buffer capacity). -/
structure RecvOs where
  ret : Int
  data : List Nat
  deriving DecidableEq, Repr

/-- `Socket::read_raw_packet_linux`: one `recvfrom` call fills the buffer;
a negative return is a socket-operation failure, otherwise unit success.
State returned unchanged. -/
def Socket.read_raw_packet (s : Socket) (buffer : List Nat) (os : RecvOs) :
    Except CursedErrorHandle Unit × List Nat × Socket :=
  if os.ret < 0 then
    (Except.error ⟨CursedError.Sockets, "Can\x27t receive packet"⟩, buffer, s)
  else
    (Except.ok (), memcpy buffer os.data (min os.ret.toNat buffer.length), s)

/-- `Socket::destroy_linux`: one `close(self.socket)` call whose return
value is discarded; `destroy` returns unit regardless. -/
def Socket.destroy (s : Socket) (closeRet : Int) : Unit × List OsCall :=
  let _ := closeRet
  ((), [OsCall.close s.socket])

/-- The three `ioctl` requests issued during Linux interface resolution. -/
inductive IoctlReq
  | SIOCGIFINDEX
  | SIOCGIFADDR
  | SIOCGIFHWADDR
  deriving DecidableEq, Repr

/-- Oracle for the three `ioctl` queries of `get_interface_info`: `none`
models the call returning `-1`, `some v` models success producing `v`. -/
structure IfOs where
  indexRes : Option Int
  ipRes : Option Ipv4
  macRes : Option Mac
  deriving DecidableEq, Repr

/-- `get_if_index`: `ioctl(socket, SIOCGIFINDEX, ifr)`; `-1` yields a
socket-operation failure, otherwise the interface index is read back.
Also records the request it issued. -/
def get_if_index (os : IfOs) : Except CursedErrorHandle Int × List IoctlReq :=
  match os.indexRes with
  | none =>
      (Except.error ⟨CursedError.Sockets, "Got error while getting SIOCGIFINDEX"⟩,
       [IoctlReq.SIOCGIFINDEX])
  | some i => (Except.ok i, [IoctlReq.SIOCGIFINDEX])

/-- `get_if_ip`: `ioctl(socket, SIOCGIFADDR, ifr)`. -/
def get_if_ip (os : IfOs) : Except CursedErrorHandle Ipv4 × List IoctlReq :=
  match os.ipRes with
  | none =>
      (Except.error ⟨CursedError.Sockets, "Got error while getting SIOCGIFADDR"⟩,
       [IoctlReq.SIOCGIFADDR])
  | some ip => (Except.ok ip, [IoctlReq.SIOCGIFADDR])

/-- `get_if_mac`: `ioctl(socket, SIOCGIFHWADDR, ifr)`. -/
def get_if_mac (os : IfOs) : Except CursedErrorHandle Mac × List IoctlReq :=
  match os.macRes with
  | none =>
      (Except.error ⟨CursedError.Sockets, "Got error while getting SIOCGIFHWADDR"⟩,
       [IoctlReq.SIOCGIFHWADDR])
  | some mac => (Except.ok mac, [IoctlReq.SIOCGIFHWADDR])

/-- `get_interface_info` (Linux): index, then IPv4, then hardware address,
each `match`ed with an early `return Err` on failure.  The second
component is the list of `ioctl` requests actually issued, in order. -/
def get_interface_info (os : IfOs) :
    Except CursedErrorHandle (Int × Ipv4 × Mac) × List IoctlReq :=
  match get_if_index os with
  | (Except.error e, t1) => (Except.error e, t1)
  | (Except.ok ifindex, t1) =>
    match get_if_ip os with
    | (Except.error e, t2) => (Except.error e, t1 ++ t2)
    | (Except.ok ip, t2) =>
      match get_if_mac os with
      | (Except.error e, t3) => (Except.error e, t1 ++ t2 ++ t3)
      | (Except.ok mac, t3) => (Except.ok (ifindex, ip, mac), t1 ++ t2 ++ t3)

end Cursock.Linux

namespace Cursock.Windows

open Cursock

/-- The Windows variant of `Socket`: the pcap adapter handle stored as an
integer plus the resolved source addresses. -/
structure Socket where
  adapter : Nat
  src_ip : Ipv4
  src_mac : Mac
  deriving DecidableEq, Repr

/-- `Socket::get_src_ip`. -/
def Socket.get_src_ip (s : Socket) : Ipv4 :=
  s.src_ip

/-- `Socket::get_src_mac`. -/
def Socket.get_src_mac (s : Socket) : Mac :=
  s.src_mac

/-- One entry of the `GetAdaptersInfo` linked list: its name (already
converted to a printable string), its hardware address and its
first-listed IPv4 address. -/
structure AdapterInfo where
  adaptername : String
  address : Mac
  firstIp : Ipv4
  deriving DecidableEq, Repr

/-- Oracle for adapter enumeration: the return value of the (second)
`GetAdaptersInfo` call (`0` = success) and the adapter list it filled. -/
structure AdaptersOs where
  enumResult : Nat
  adapters : List AdapterInfo
  deriving DecidableEq, Repr

/-- The scanning loop of the Windows `get_interface_info`: walks the whole
adapter list and keeps the addresses of the last entry whose name equals
`adapter_name` exactly. -/
def scan_adapters (adapter_name : String) (l : List AdapterInfo)
    (acc : Option (Ipv4 × Mac)) : Option (Ipv4 × Mac) :=
  match l with
  | [] => acc
  | a :: rest =>
      scan_adapters adapter_name rest
        (if adapter_name = a.adaptername then some (a.firstIp, a.address) else acc)

/-- `get_interface_info` (Windows): a nonzero enumeration return fails with
a socket-operation failure carrying the numeric code; otherwise the list
is scanned for an exact name match, and no match fails with
invalid-argument. -/
def get_interface_info (os : AdaptersOs) (adapter_name : String) :
    Except CursedErrorHandle (Ipv4 × Mac) :=
  if os.enumResult ≠ 0 then
    Except.error ⟨CursedError.Sockets,
      "Got " ++ toString os.enumResult ++ " error while getting adapters info"⟩
  else
    match scan_adapters adapter_name os.adapters none with
    | some adapter_info => Except.ok adapter_info
    | none =>
        Except.error ⟨CursedError.InvalidArgument,
          adapter_name ++ " is not valid adapter name"⟩

/-- `PCAP_OPENFLAG_PROMISCUOUS`. -/
def PCAP_OPENFLAG_PROMISCUOUS : Nat := 1

/-- The arguments `new_windows` passes to `pcap_open`. -/
structure PcapOpenArgs where
  source : String
  snaplen : Nat
  flags : Nat
  read_to_ms : Nat
  auth_is_null : Bool
  deriving DecidableEq, Repr

/-- Oracle for the `pcap_open` call: the returned handle (`0` = null
pointer) and the error text left in the error buffer. -/
structure PcapOs where
  openResult : Nat
  errorText : String
  deriving DecidableEq, Repr

/-- Whether a string contains a NUL byte (makes `CString::new` fail). -/
def hasNulByte (s : String) : Bool :=
  s.toList.any (fun c => c = Char.ofNat 0)

/-- `Socket::new_windows`: resolve the interface, build the
`rpcap://\Device\NPF_<name>` connection string, call `pcap_open` with
snaplen 65535, promiscuous flag, read timeout argument 1 and null auth;
a null handle fails with a socket-operation failure carrying the library
error text.  The second component records the `pcap_open` arguments
(`none` when `pcap_open` was never reached). -/
def Socket.new_windows (adapters : AdaptersOs) (pcap : PcapOs)
    (interface : String) :
    Except CursedErrorHandle Socket × Option PcapOpenArgs :=
  match get_interface_info adapters interface with
  | Except.error e => (Except.error e, none)
  | Except.ok (src_ip, src_mac) =>
    let pcap_interface : String := "rpcap://\\Device\\NPF_" ++ interface
    if hasNulByte pcap_interface then
      (Except.error ⟨CursedError.Parse,
        pcap_interface ++
          " is not valid c string can\x27t convert it due to an interior nul byte"⟩,
       none)
    else
      let args : PcapOpenArgs :=
        ⟨pcap_interface, 65535, PCAP_OPENFLAG_PROMISCUOUS, 1, true⟩
      if pcap.openResult = 0 then
        (Except.error ⟨CursedError.Sockets,
          "Can\x27t open adapted due to " ++ pcap.errorText⟩,
         some args)
      else
        (Except.ok ⟨pcap.openResult, src_ip, src_mac⟩, some args)

/-- The header filled by `pcap_next_ex`. -/
structure PcapPkthdr where
  caplen : Nat
  len : Nat
  deriving DecidableEq, Repr

/-- Oracle for one `pcap_next_ex` call: its return value, the header and
the captured bytes it points at. -/
structure PcapNextOs where
  result : Int
  header : PcapPkthdr
  pkt_data : List Nat
  deriving DecidableEq, Repr

/-- `Socket::read_raw_packet_windows`: a `0` return from `pcap_next_ex` is
a timeout failure with the buffer untouched; any other return copies
`min(buffer capacity, caplen)` bytes into the buffer and succeeds with
unit.  State returned unchanged. -/
def Socket.read_raw_packet (s : Socket) (buffer : List Nat) (os : PcapNextOs) :
    Except CursedErrorHandle Unit × List Nat × Socket :=
  if os.result = 0 then
    (Except.error ⟨CursedError.TimeOut, "reading raw packet timed out"⟩, buffer, s)
  else
    let size : Nat :=
      if buffer.length < os.header.caplen then buffer.length else os.header.caplen
    (Except.ok (), memcpy buffer os.pkt_data size, s)

/-- `Socket::send_raw_packet_windows`: one `pcap_inject` call; a negative
return is a socket-operation failure carrying the library error text,
otherwise unit success.  State returned unchanged. -/
def Socket.send_raw_packet (s : Socket) (injectRet : Int) (errText : String) :
    Except CursedErrorHandle Unit × Socket :=
  if injectRet < 0 then
    (Except.error ⟨CursedError.Sockets,
      "Can\x27t send buffer due to \"" ++ errText ++ "\""⟩, s)
  else
    (Except.ok (), s)

/-- The OS calls `Socket::read_raw_packet_windows` issues. -/
def Socket.read_calls (s : Socket) : List OsCall :=
  [OsCall.pcap_next_ex s.adapter]

/-- The OS calls `Socket::send_raw_packet_windows` issues. -/
def Socket.send_calls (s : Socket) : List OsCall :=
  [OsCall.pcap_inject s.adapter]

/-- The OS calls `Socket::destroy` issues on Windows: the `cfg(linux)`
block is absent, so the body is empty and nothing is called. -/
def Socket.destroy_calls (s : Socket) : List OsCall :=
  let _ := s
  []

end Cursock.Windows

namespace Cursock

/-- Modelled from the spec: the body of the `timeout!` macro (generated
`read_timeout`, not under src/) runs the blocking read on a separate unit
of concurrent execution and waits for the deadline; it yields
`some result` when the underlying `Socket::read_raw_packet` finishes
before the deadline and `none` when the deadline elapses first. -/
def read_timeout (underlying : Except CursedErrorHandle Unit)
    (finishedBeforeDeadline : Bool) : Option (Except CursedErrorHandle Unit) :=
  if finishedBeforeDeadline then some underlying else none

/-- `Socket::read_raw_packet_timeout`: forwards the result of
`read_timeout` and turns its `None` into a timeout error. -/
def read_raw_packet_timeout (underlying : Except CursedErrorHandle Unit)
    (finishedBeforeDeadline : Bool) : Except CursedErrorHandle Unit :=
  match read_timeout underlying finishedBeforeDeadline with
  | some result => result
  | none =>
      Except.error ⟨CursedError.TimeOut, "socket read timed out!"⟩

end Cursock

namespace Cursock

section Helpers

/-- The code's `if a < b then a else b` selection of the copy size equals
`min a b`. -/
theorem if_lt_eq_min (a b : Nat) : (if a < b then a else b) = min a b := by
  rcases Nat.lt_or_ge a b with h | h
  · simp [h, Nat.min_eq_left (Nat.le_of_lt h)]
  · simp [Nat.not_lt.2 h, Nat.min_eq_right h]

/-- Scanning an adapter list in which no entry's name equals the requested
name leaves the accumulator `none`. -/
theorem scan_adapters_no_match (name : String) (l : List Windows.AdapterInfo)
    (h : ∀ a ∈ l, name ≠ a.adaptername) :
    Windows.scan_adapters name l none = none := by
  induction l with
  | nil => rfl
  | cons a rest ih =>
      have ha : name ≠ a.adaptername := h a (List.mem_cons_self a rest)
      have hrest : ∀ b ∈ rest, name ≠ b.adaptername :=
        fun b hb => h b (List.mem_cons_of_mem a hb)
      simpa [Windows.scan_adapters, ha] using ih hrest

end Helpers

/-- Claim C1: for every underlying read result, `read_raw_packet_timeout`
returns a timeout-kind error when the deadline elapses before the
underlying blocking receive completes, and otherwise returns exactly the
result (success or error) of the underlying receive. -/
theorem read_raw_packet_timeout_spec (underlying : Except CursedErrorHandle Unit) :
    read_raw_packet_timeout underlying false =
      Except.error ⟨CursedError.TimeOut, "socket read timed out!"⟩ ∧
    read_raw_packet_timeout underlying true = underlying := by
  constructor <;> rfl

/-- Claim C6: whenever `pcap_next_ex` returns `0`, the Windows
`read_raw_packet` fails with a timeout-kind error and writes nothing into
the caller's buffer. -/
theorem read_raw_packet_windows_timeout (s : Windows.Socket)
    (buffer : List Nat) (os : Windows.PcapNextOs) (h : os.result = 0) :
    Windows.Socket.read_raw_packet s buffer os =
      (Except.error ⟨CursedError.TimeOut, "reading raw packet timed out"⟩,
       buffer, s) := by
  simp [Windows.Socket.read_raw_packet, h]

/-- Witness for C6 at a concrete socket, buffer and capture result. -/
theorem read_raw_packet_windows_timeout_witness :
    Windows.Socket.read_raw_packet ⟨1, ⟨10, 0, 0, 1⟩, ⟨0, 1, 2, 3, 4, 5⟩⟩
        [7, 7] ⟨0, ⟨5, 5⟩, [1, 2, 3, 4, 5]⟩ =
      (Except.error ⟨CursedError.TimeOut, "reading raw packet timed out"⟩,
       [7, 7], ⟨1, ⟨10, 0, 0, 1⟩, ⟨0, 1, 2, 3, 4, 5⟩⟩) :=
  read_raw_packet_windows_timeout _ _ _ rfl

/-- Claim C9: the Windows `read_raw_packet` treats every `pcap_next_ex`
return other than `0` — negative error returns included — as a captured
packet, so it never returns a socket-operation failure; its only possible
error kind is timeout. -/
theorem read_raw_packet_windows_only_timeout_errors (s : Windows.Socket)
    (buffer : List Nat) (os : Windows.PcapNextOs) :
    (os.result ≠ 0 →
      (Windows.Socket.read_raw_packet s buffer os).1 = Except.ok ()) ∧
    (∀ e, (Windows.Socket.read_raw_packet s buffer os).1 = Except.error e →
      e.kind = CursedError.TimeOut) := by
  constructor
  · intro h
    simp [Windows.Socket.read_raw_packet, h]
  · intro e he
    by_cases h : os.result = 0
    · simp [Windows.Socket.read_raw_packet, h] at he
      simp [← he]
    · simp [Windows.Socket.read_raw_packet, h] at he

/-- Witness for C9: a negative (error) return from `pcap_next_ex` still
yields success. -/
theorem read_raw_packet_windows_only_timeout_errors_witness :
    (Windows.Socket.read_raw_packet ⟨1, ⟨10, 0, 0, 1⟩, ⟨0, 1, 2, 3, 4, 5⟩⟩
        [7, 7] ⟨-1, ⟨5, 5⟩, [1, 2, 3, 4, 5]⟩).1 = Except.ok () :=
  (read_raw_packet_windows_only_timeout_errors _ _ _).1 (by decide)

/-- Claim C2: when `pcap_next_ex` reports a packet, the Windows
`read_raw_packet` copies `caplen` bytes when the frame fits the buffer and
exactly buffer-capacity bytes when it is larger, returning success in both
cases; with at least `caplen` captured bytes available the buffer keeps
its capacity. -/
theorem read_raw_packet_windows_truncation (s : Windows.Socket)
    (buffer : List Nat) (os : Windows.PcapNextOs) (h : os.result ≠ 0) :
    (Windows.Socket.read_raw_packet s buffer os).1 = Except.ok () ∧
    (Windows.Socket.read_raw_packet s buffer os).2.1 =
      os.pkt_data.take (min buffer.length os.header.caplen) ++
        buffer.drop (min buffer.length os.header.caplen) ∧
    (buffer.length < os.header.caplen →
      min buffer.length os.header.caplen = buffer.length) ∧
    (os.header.caplen ≤ buffer.length →
      min buffer.length os.header.caplen = os.header.caplen) ∧
    (os.header.caplen ≤ os.pkt_data.length →
      ((Windows.Socket.read_raw_packet s buffer os).2.1).length =
        buffer.length) := by
  refine ⟨?_, ?_, ?_, ?_, ?_⟩
  · simp [Windows.Socket.read_raw_packet, h]
  · simp [Windows.Socket.read_raw_packet, h, memcpy, if_lt_eq_min]
  · intro hlt
    exact Nat.min_eq_left (Nat.le_of_lt hlt)
  · intro hle
    exact Nat.min_eq_right hle
  · intro hcap
    simp [Windows.Socket.read_raw_packet, h, memcpy, if_lt_eq_min,
      List.length_append, List.length_take, List.length_drop]
    omega

/-- Witness for C2: a 5-byte capture into a 2-byte buffer copies exactly
the 2 buffer bytes and succeeds. -/
theorem read_raw_packet_windows_truncation_witness :
    (Windows.Socket.read_raw_packet ⟨1, ⟨10, 0, 0, 1⟩, ⟨0, 1, 2, 3, 4, 5⟩⟩
        [9, 9] ⟨1, ⟨5, 5⟩, [1, 2, 3, 4, 5]⟩).1 = Except.ok () ∧
    (Windows.Socket.read_raw_packet ⟨1, ⟨10, 0, 0, 1⟩, ⟨0, 1, 2, 3, 4, 5⟩⟩
        [9, 9] ⟨1, ⟨5, 5⟩, [1, 2, 3, 4, 5]⟩).2.1 = [1, 2] := by
  have h := read_raw_packet_windows_truncation
    ⟨1, ⟨10, 0, 0, 1⟩, ⟨0, 1, 2, 3, 4, 5⟩⟩ [9, 9] ⟨1, ⟨5, 5⟩, [1, 2, 3, 4, 5]⟩
    (by decide)
  refine ⟨h.1, ?_⟩
  rw [h.2.1]
  rfl

/-- Claim C3: Linux interface resolution issues the three `ioctl` queries
in the order index, IPv4, hardware address; each failing query yields a
socket-operation failure, resolution succeeds only when all three succeed,
and the first failing query aborts the remaining ones, so no partial
result is returned. -/
theorem get_interface_info_linux_spec (os : Linux.IfOs) :
    (∀ i ip mac, os.indexRes = some i → os.ipRes = some ip →
      os.macRes = some mac →
      Linux.get_interface_info os =
        (Except.ok (i, ip, mac),
         [Linux.IoctlReq.SIOCGIFINDEX, Linux.IoctlReq.SIOCGIFADDR,
          Linux.IoctlReq.SIOCGIFHWADDR])) ∧
    (os.indexRes = none →
      Linux.get_interface_info os =
        (Except.error ⟨CursedError.Sockets,
           "Got error while getting SIOCGIFINDEX"⟩,
         [Linux.IoctlReq.SIOCGIFINDEX])) ∧
    (∀ i, os.indexRes = some i → os.ipRes = none →
      Linux.get_interface_info os =
        (Except.error ⟨CursedError.Sockets,
           "Got error while getting SIOCGIFADDR"⟩,
         [Linux.IoctlReq.SIOCGIFINDEX, Linux.IoctlReq.SIOCGIFADDR])) ∧
    (∀ i ip, os.indexRes = some i → os.ipRes = some ip → os.macRes = none →
      Linux.get_interface_info os =
        (Except.error ⟨CursedError.Sockets,
           "Got error while getting SIOCGIFHWADDR"⟩,
         [Linux.IoctlReq.SIOCGIFINDEX, Linux.IoctlReq.SIOCGIFADDR,
          Linux.IoctlReq.SIOCGIFHWADDR])) := by
  refine ⟨?_, ?_, ?_, ?_⟩
  · intro i ip mac hi hip hmac
    simp [Linux.get_interface_info, Linux.get_if_index, Linux.get_if_ip,
      Linux.get_if_mac, hi, hip, hmac]
  · intro hi
    simp [Linux.get_interface_info, Linux.get_if_index, hi]
  · intro i hi hip
    simp [Linux.get_interface_info, Linux.get_if_index, Linux.get_if_ip,
      hi, hip]
  · intro i ip hi hip hmac
    simp [Linux.get_interface_info, Linux.get_if_index, Linux.get_if_ip,
      Linux.get_if_mac, hi, hip, hmac]

/-- Witness for C3: with the index query succeeding and the IPv4 query
failing, resolution stops after the second query with a
socket-operation failure. -/
theorem get_interface_info_linux_spec_witness :
    Linux.get_interface_info ⟨some 2, none, some ⟨0, 1, 2, 3, 4, 5⟩⟩ =
      (Except.error ⟨CursedError.Sockets,
         "Got error while getting SIOCGIFADDR"⟩,
       [Linux.IoctlReq.SIOCGIFINDEX, Linux.IoctlReq.SIOCGIFADDR]) :=
  (get_interface_info_linux_spec ⟨some 2, none, some ⟨0, 1, 2, 3, 4, 5⟩⟩).2.2.1
    2 rfl rfl

/-- Claim C4: Windows interface resolution fails with invalid-argument
whenever no enumerated adapter's name is exactly equal to the requested
name, and fails with a socket-operation failure carrying the numeric OS
code whenever the enumeration call itself fails. -/
theorem get_interface_info_windows_failures (os : Windows.AdaptersOs)
    (name : String) :
    (os.enumResult ≠ 0 →
      Windows.get_interface_info os name =
        Except.error ⟨CursedError.Sockets,
          "Got " ++ toString os.enumResult ++
            " error while getting adapters info"⟩) ∧
    (os.enumResult = 0 → (∀ a ∈ os.adapters, name ≠ a.adaptername) →
      Windows.get_interface_info os name =
        Except.error ⟨CursedError.InvalidArgument,
          name ++ " is not valid adapter name"⟩) := by
  constructor
  · intro h
    simp [Windows.get_interface_info, h]
  · intro h0 hnone
    simp [Windows.get_interface_info, h0,
      scan_adapters_no_match name os.adapters hnone]

/-- Witness for C4: a failing enumeration call reports its numeric code,
and a name differing only in case from the one enumerated adapter is
rejected with invalid-argument. -/
theorem get_interface_info_windows_failures_witness :
    Windows.get_interface_info ⟨111, []⟩ "eth0" =
      Except.error ⟨CursedError.Sockets,
        "Got 111 error while getting adapters info"⟩ ∧
    Windows.get_interface_info
        ⟨0, [⟨"eth0", ⟨0, 1, 2, 3, 4, 5⟩, ⟨10, 0, 0, 1⟩⟩]⟩ "ETH0" =
      Except.error ⟨CursedError.InvalidArgument,
        "ETH0 is not valid adapter name"⟩ := by
  constructor
  · exact (get_interface_info_windows_failures ⟨111, []⟩ "eth0").1 (by decide)
  · exact (get_interface_info_windows_failures
      ⟨0, [⟨"eth0", ⟨0, 1, 2, 3, 4, 5⟩, ⟨10, 0, 0, 1⟩⟩]⟩ "ETH0").2 rfl
      (by decide)

/-- Counterexample to claim C5: at a concrete adapter list and interface
name, `new_windows` reaches `pcap_open` and passes `1` — not `0` (no
timeout) — as the read-timeout argument, so a read timeout is configured
at open time. -/
theorem new_windows_read_to_counterexample :
    (Windows.Socket.new_windows
        ⟨0, [⟨"IF0", ⟨0, 1, 2, 3, 4, 5⟩, ⟨10, 0, 0, 1⟩⟩]⟩ ⟨5, ""⟩ "IF0").2 =
      some ⟨"rpcap://\\Device\\NPF_IF0", 65535,
            Windows.PCAP_OPENFLAG_PROMISCUOUS, 1, true⟩ ∧
    (Windows.Socket.new_windows
        ⟨0, [⟨"IF0", ⟨0, 1, 2, 3, 4, 5⟩, ⟨10, 0, 0, 1⟩⟩]⟩ ⟨5, ""⟩ "IF0").2.map
        Windows.PcapOpenArgs.read_to_ms ≠ some 0 := by
  constructor
  · rfl
  · decide

/-- Claim C5 (amended: the read-timeout argument is `1`, not absent): on
Windows, `new_windows` builds the `rpcap://\Device\NPF_<name>` connection
string, opens it promiscuous with snaplen 65535, read-timeout argument 1
and null auth; a null handle from `pcap_open` yields a socket-operation
failure with the library's error text and no channel, and a non-null
handle yields a channel storing the handle and the resolved addresses. -/
theorem new_windows_spec (adapters : Windows.AdaptersOs)
    (pcap : Windows.PcapOs) (interface : String) (ip : Ipv4) (mac : Mac)
    (hres : Windows.get_interface_info adapters interface =
      Except.ok (ip, mac))
    (hnul : Windows.hasNulByte ("rpcap://\\Device\\NPF_" ++ interface) =
      false) :
    (Windows.Socket.new_windows adapters pcap interface).2 =
      some ⟨"rpcap://\\Device\\NPF_" ++ interface, 65535,
            Windows.PCAP_OPENFLAG_PROMISCUOUS, 1, true⟩ ∧
    (pcap.openResult = 0 →
      (Windows.Socket.new_windows adapters pcap interface).1 =
        Except.error ⟨CursedError.Sockets,
          "Can\x27t open adapted due to " ++ pcap.errorText⟩) ∧
    (pcap.openResult ≠ 0 →
      (Windows.Socket.new_windows adapters pcap interface).1 =
        Except.ok ⟨pcap.openResult, ip, mac⟩) := by
  refine ⟨?_, ?_, ?_⟩
  · by_cases h0 : pcap.openResult = 0 <;>
      simp [Windows.Socket.new_windows, hres, hnul, h0]
  · intro h0
    simp [Windows.Socket.new_windows, hres, hnul, h0]
  · intro h0
    simp [Windows.Socket.new_windows, hres, hnul, h0]

/-- Witness for C5's amended theorem: a null `pcap_open` return at a
concrete adapter yields the socket-operation failure with the library
text. -/
theorem new_windows_spec_witness :
    (Windows.Socket.new_windows
        ⟨0, [⟨"IF0", ⟨0, 1, 2, 3, 4, 5⟩, ⟨10, 0, 0, 1⟩⟩]⟩ ⟨0, "lib err"⟩
        "IF0").1 =
      Except.error ⟨CursedError.Sockets,
        "Can\x27t open adapted due to lib err"⟩ :=
  (new_windows_spec ⟨0, [⟨"IF0", ⟨0, 1, 2, 3, 4, 5⟩, ⟨10, 0, 0, 1⟩⟩]⟩
      ⟨0, "lib err"⟩ "IF0" ⟨10, 0, 0, 1⟩ ⟨0, 1, 2, 3, 4, 5⟩ rfl
      (by decide)).2.1 rfl

/-- Counterexample to claim C7: two successful sends that transmitted
different byte counts return the one identical unit success value, so no
function of the returned success value recovers the number of bytes sent —
the success value is not the byte count. -/
theorem send_success_value_counterexample :
    (Linux.Socket.send_raw_packet
        ⟨1, 3, ⟨10, 0, 0, 1⟩, ⟨0, 1, 2, 3, 4, 5⟩⟩ 3).1 = Except.ok () ∧
    (Linux.Socket.send_raw_packet
        ⟨1, 3, ⟨10, 0, 0, 1⟩, ⟨0, 1, 2, 3, 4, 5⟩⟩ 5).1 = Except.ok () ∧
    ¬ ∃ f : Except CursedErrorHandle Unit → Int,
        f (Linux.Socket.send_raw_packet
            ⟨1, 3, ⟨10, 0, 0, 1⟩, ⟨0, 1, 2, 3, 4, 5⟩⟩ 3).1 = 3 ∧
        f (Linux.Socket.send_raw_packet
            ⟨1, 3, ⟨10, 0, 0, 1⟩, ⟨0, 1, 2, 3, 4, 5⟩⟩ 5).1 = 5 := by
  refine ⟨rfl, rfl, ?_⟩
  rintro ⟨f, h3, h5⟩
  have heq : (Linux.Socket.send_raw_packet
      ⟨1, 3, ⟨10, 0, 0, 1⟩, ⟨0, 1, 2, 3, 4, 5⟩⟩ 3).1 =
    (Linux.Socket.send_raw_packet
      ⟨1, 3, ⟨10, 0, 0, 1⟩, ⟨0, 1, 2, 3, 4, 5⟩⟩ 5).1 := rfl
  rw [heq, h5] at h3
  exact absurd h3 (by decide)

/-- Claim C7 (amended: the success value is unit, not a byte count): on
every successful call send and receive return unit — the byte count is
only printed in debug mode — and success occurs exactly when the
underlying OS or library call did not report failure. -/
theorem send_read_success_unit (s : Linux.Socket) (ret : Int)
    (buffer : List Nat) (os : Linux.RecvOs) (sw : Windows.Socket)
    (injectRet : Int) (errText : String) (wbuffer : List Nat)
    (pos : Windows.PcapNextOs) :
    ((Linux.Socket.send_raw_packet s ret).1 = Except.ok () ↔ 0 ≤ ret) ∧
    ((Linux.Socket.read_raw_packet s buffer os).1 = Except.ok () ↔
      0 ≤ os.ret) ∧
    ((Windows.Socket.send_raw_packet sw injectRet errText).1 =
        Except.ok () ↔ 0 ≤ injectRet) ∧
    ((Windows.Socket.read_raw_packet sw wbuffer pos).1 = Except.ok () ↔
      pos.result ≠ 0) := by
  refine ⟨?_, ?_, ?_, ?_⟩
  · by_cases h : ret < 0
    · simp only [Linux.Socket.send_raw_packet, if_pos h]
      simp
      omega
    · simp only [Linux.Socket.send_raw_packet, if_neg h]
      simp
      omega
  · by_cases h : os.ret < 0
    · simp only [Linux.Socket.read_raw_packet, if_pos h]
      simp
      omega
    · simp only [Linux.Socket.read_raw_packet, if_neg h]
      simp
      omega
  · by_cases h : injectRet < 0
    · simp only [Windows.Socket.send_raw_packet, if_pos h]
      simp
      omega
    · simp only [Windows.Socket.send_raw_packet, if_neg h]
      simp
      omega
  · by_cases h : pos.result = 0
    · simp [Windows.Socket.read_raw_packet, h]
    · simp [Windows.Socket.read_raw_packet, h]

/-- Claim C8: the stored source IPv4 and MAC are never modified by send or
receive on either platform, and the getters always return exactly the
stored construction-time values. -/
theorem src_addresses_immutable (s : Linux.Socket) (ret : Int)
    (buffer : List Nat) (os : Linux.RecvOs) (sw : Windows.Socket)
    (injectRet : Int) (errText : String) (wbuffer : List Nat)
    (pos : Windows.PcapNextOs) :
    Linux.Socket.get_src_ip s = s.src_ip ∧
    Linux.Socket.get_src_mac s = s.src_mac ∧
    Windows.Socket.get_src_ip sw = sw.src_ip ∧
    Windows.Socket.get_src_mac sw = sw.src_mac ∧
    (Linux.Socket.send_raw_packet s ret).2 = s ∧
    (Linux.Socket.read_raw_packet s buffer os).2.2 = s ∧
    (Windows.Socket.send_raw_packet sw injectRet errText).2 = sw ∧
    (Windows.Socket.read_raw_packet sw wbuffer pos).2.2 = sw := by
  refine ⟨rfl, rfl, rfl, rfl, ?_, ?_, ?_, ?_⟩
  · unfold Linux.Socket.send_raw_packet
    split <;> rfl
  · unfold Linux.Socket.read_raw_packet
    split <;> rfl
  · unfold Windows.Socket.send_raw_packet
    split <;> rfl
  · unfold Windows.Socket.read_raw_packet
    split <;> rfl

/-- Claim C10: `destroy` issues exactly one `close` on the stored
descriptor on Linux, ignoring its result; on Windows `destroy` performs no
call at all, and neither the Windows receive nor the Windows send ever
issues a handle-releasing call. -/
theorem destroy_release_behavior (s : Linux.Socket) (closeRet : Int)
    (sw : Windows.Socket) :
    Linux.Socket.destroy s closeRet = ((), [OsCall.close s.socket]) ∧
    Windows.Socket.destroy_calls sw = [] ∧
    (Windows.Socket.read_calls sw).all (fun c => ! c.isRelease) = true ∧
    (Windows.Socket.send_calls sw).all (fun c => ! c.isRelease) = true := by
  exact ⟨rfl, rfl, rfl, rfl⟩

end Cursock
